import Mathlib

/-!
# Verification of `src/tutorials/synthesis/echo.cpp`

A shallow embedding of the voice class `SineEnv`, the application class `MyApp`
and `main` from `echo.cpp`.  The file contains only glue code around two
external libraries (the Gamma DSP library and the allolib application
framework); accordingly the per-sample mathematics of the external unit
generators (sine oscillator, envelope interpolation, pan law, envelope
follower smoothing) and the external key tables (`asciiToMIDI`,
`asciiToIndex`) are kept abstract: they appear as function parameters of the
embedded operations, and every theorem quantifies over them.  The state the
glue code itself reads and writes (oscillator frequency, envelope curve,
levels, segment lengths and sustain point, pan position, follower value, the
named parameter store) is modelled explicitly.  C floats are idealised as
real numbers.
-/

noncomputable section

namespace Echo

open Classical

/-! ## Parameter store

`createInternalTriggerParameter(name, default, min, max)` appends a named,
bounded parameter; `getInternalParameterValue(name)` reads the current value
of the first parameter with the given name (0 if absent, mirroring a lookup
miss); the setter is modelled below next to `onKeyDown`. -/

structure Param where
  name : String
  value : ℝ
  minValue : ℝ
  maxValue : ℝ

abbrev ParamStore := List Param

def createInternalTriggerParameter (ps : ParamStore) (name : String)
    (defaultValue minValue maxValue : ℝ) : ParamStore :=
  ps ++ [⟨name, defaultValue, minValue, maxValue⟩]

def getInternalParameterValue : ParamStore → String → ℝ
  | [], _ => 0
  | p :: rest, name =>
      if p.name = name then p.value else getInternalParameterValue rest name

/-- Declared upper bound (`max`) of a named parameter, 0 if absent. -/
def getInternalParameterMax : ParamStore → String → ℝ
  | [], _ => 0
  | p :: rest, name =>
      if p.name = name then p.maxValue else getInternalParameterMax rest name

/-- Modelled from the spec: the external framework's
`setInternalParameterValue(name, value)` stores the given value into the
named parameter of the voice.  Per the spec, "parameter values are clamped
only by the GUI control's declared min/max", so the programmatic setter
applies no clamping to the declared `[min, max]` range. -/
def setInternalParameterValue : ParamStore → String → ℝ → ParamStore
  | [], _, _ => []
  | p :: rest, name, v =>
      if p.name = name then { p with value := v } :: rest
      else p :: setInternalParameterValue rest name v

/-! ## Unit-generator state visible to the glue code

Only the fields that `echo.cpp` itself sets or reads are modelled; the
remaining internal state of each generator (oscillator phase, envelope
position, follower filter memory) is an opaque `internal` component that the
abstract per-sample step functions may use and update. -/

/-- `gam::Sine<>`: the glue code only sets its frequency. -/
structure Osc where
  freq : ℝ
  internal : ℝ

/-- `gam::Env<3>`: a 4-level, 3-segment envelope.  The glue code sets its
curve, its levels, its sustain point and two of its segment lengths. -/
structure Env3 where
  curve : ℝ
  levels : Fin 4 → ℝ
  lengths : Fin 3 → ℝ
  sustainPoint : ℕ
  internal : ℝ

/-- `gam::Pan<>`: the glue code only sets its position. -/
structure PanUgen where
  pos : ℝ

/-- `gam::EnvFollow<>`: the glue code reads its smoothed value. -/
structure EnvFollow where
  value : ℝ

/-- The abstract per-sample semantics of the external DSP library:
`oscStep` is one call `mOsc()` (returns a sample and the advanced state);
`envStep` is one call `mAmpEnv()`; `envDone` is `mAmpEnv.done()`;
`followStep s` is `mEnvFollow(s)`; `panLaw pos s = (out1, out2)` is
`mPan(s, out1, out2)` at pan position `pos`. -/
structure External where
  oscStep : Osc → ℝ × Osc
  envStep : Env3 → ℝ × Env3
  envDone : Env3 → Bool
  followStep : ℝ → EnvFollow → EnvFollow
  panLaw : ℝ → ℝ → ℝ × ℝ

/-! ## The voice class `SineEnv` -/

structure SineEnv where
  mPan : PanUgen
  mOsc : Osc
  mAmpEnv : Env3
  mEnvFollow : EnvFollow
  params : ParamStore

/-- `SineEnv::init`: called once per pooled voice instance, on a freshly
constructed voice whose parameter set is empty.  It makes the envelope
segments lines (`curve(0)`), sets `levels(0, 1, 1, 0)`, makes point 2 the
sustain point, and creates the five internal trigger parameters with their
defaults and bounds.  (The call `addDisc(mMesh, 1.0, 30)` only builds the
graphics mesh and is not part of the audio state.) -/
def SineEnv.init (v : SineEnv) : SineEnv :=
  { v with
    mAmpEnv :=
      { v.mAmpEnv with curve := 0, levels := ![0, 1, 1, 0], sustainPoint := 2 },
    params :=
      let ps : ParamStore := []
      let ps := createInternalTriggerParameter ps "amplitude" 0.3 0.0 1.0
      let ps := createInternalTriggerParameter ps "frequency" 60 20 5000
      let ps := createInternalTriggerParameter ps "attackTime" 1.0 0.01 3.0
      let ps := createInternalTriggerParameter ps "releaseTime" 3.0 0.1 10.0
      createInternalTriggerParameter ps "pan" 0.0 (-1.0) 1.0 }

/-! ## `SineEnv::onProcess`

The audio callback body.  An audio buffer is a list of frames; each frame
carries the two output-channel samples already accumulated there by voices
rendered earlier in the same callback (`io.out(0)` and `io.out(1)` are
read-modify-write: the code uses `+=`). -/

structure Frame where
  out0 : ℝ
  out1 : ℝ

/-- One iteration of the `while (io())` loop:
`float s1 = mOsc() * mAmpEnv() * getInternalParameterValue("amplitude");`
then `mEnvFollow(s1);`, then `mPan(s1, s1, s2);` (the pre-pan sample `s1` is
overwritten with the channel-0 output), then `io.out(0) += s1;
io.out(1) += s2;`. -/
def processFrame (ext : External) (v : SineEnv) (f : Frame) : SineEnv × Frame :=
  let o := ext.oscStep v.mOsc
  let e := ext.envStep v.mAmpEnv
  let s1 := o.1 * e.1 * getInternalParameterValue v.params "amplitude"
  let follow' := ext.followStep s1 v.mEnvFollow
  let s12 := ext.panLaw v.mPan.pos s1
  ({ v with mOsc := o.2, mAmpEnv := e.2, mEnvFollow := follow' },
   { out0 := f.out0 + s12.1, out1 := f.out1 + s12.2 })

/-- The `while (io())` loop over the whole buffer. -/
def processLoop (ext : External) (v : SineEnv) : List Frame → SineEnv × List Frame
  | [] => (v, [])
  | f :: rest =>
      let r := processFrame ext v f
      let r' := processLoop ext r.1 rest
      (r'.1, r.2 :: r'.2)

/-- The four parameter reads at the top of `onProcess`, before the sample
loop: `mOsc.freq(...)`, `mAmpEnv.lengths()[0] = ...`,
`mAmpEnv.lengths()[2] = ...`, `mPan.pos(...)`. -/
def SineEnv.applyParams (v : SineEnv) : SineEnv :=
  let v1 : SineEnv :=
    { v with mOsc := { v.mOsc with
        freq := getInternalParameterValue v.params "frequency" } }
  let v2 : SineEnv :=
    { v1 with mAmpEnv := { v1.mAmpEnv with
        lengths := Function.update v1.mAmpEnv.lengths 0
          (getInternalParameterValue v1.params "attackTime") } }
  let v3 : SineEnv :=
    { v2 with mAmpEnv := { v2.mAmpEnv with
        lengths := Function.update v2.mAmpEnv.lengths 2
          (getInternalParameterValue v2.params "releaseTime") } }
  { v3 with mPan := { pos := getInternalParameterValue v3.params "pan" } }

/-- `SineEnv::onProcess(io)`: apply the current parameter values, run the
sample loop, then
`if (mAmpEnv.done() && (mEnvFollow.value() < 0.001f)) free();`.
Returns the voice state, the output buffer, and whether `free()` was called
(which returns the voice to the pool). -/
def SineEnv.onProcess (ext : External) (v : SineEnv) (buf : List Frame) :
    SineEnv × List Frame × Bool :=
  let r := processLoop ext v.applyParams buf
  (r.1, r.2, ext.envDone r.1.mAmpEnv && decide (r.1.mEnvFollow.value < 0.001))

/-! ## The application class `MyApp`

The synth manager, the GUI and the key tables belong to the external
framework; the key handlers' calls into them are recorded as an event
trace, and the key tables `asciiToMIDI` / `asciiToIndex` are abstract
function parameters. -/

/-- A keyboard event as seen by `onKeyDown` / `onKeyUp`: the ASCII key code
and whether shift is held. -/
structure Keyboard where
  key : ℕ
  shift : Bool

/-- A call made by a key handler into the external synth manager. -/
inductive SynthEvent where
  | recallPreset (presetNumber : ℤ)
  | triggerOn (midiNote : ℤ)
  | triggerOff (midiNote : ℤ)
deriving DecidableEq

/-- The frequency written at key-down:
`::pow(2.f, (midiNote - 69.f) / 12.f) * 432.f`, idealised over ℝ. -/
def midiToFreq (midiNote : ℤ) : ℝ :=
  (2 : ℝ) ^ (((midiNote : ℝ) - 69) / 12) * 432

/-- `MyApp::onKeyDown`: if the GUI is using the keyboard, do nothing; else if
shift is held, recall the preset `asciiToIndex(k.key())`; else compute
`asciiToMIDI(k.key())` and, when it is greater than 0, set the voice's
"frequency" parameter to `midiToFreq` of the note and trigger the note on.
Returns the (possibly updated) voice parameter store, the trace of synth
manager calls, and the handler's boolean result. -/
def onKeyDown (asciiToMIDI asciiToIndex : ℕ → ℤ) (guiUsingKeyboard : Bool)
    (k : Keyboard) (voiceParams : ParamStore) :
    ParamStore × List SynthEvent × Bool :=
  if guiUsingKeyboard then
    (voiceParams, [], true)
  else if k.shift then
    (voiceParams, [SynthEvent.recallPreset (asciiToIndex k.key)], true)
  else
    let midiNote := asciiToMIDI k.key
    if midiNote > 0 then
      (setInternalParameterValue voiceParams "frequency" (midiToFreq midiNote),
       [SynthEvent.triggerOn midiNote], true)
    else
      (voiceParams, [], true)

/-- `MyApp::onKeyUp`: compute `asciiToMIDI(k.key())` and, when it is greater
than 0, trigger the note off; always return true. -/
def onKeyUp (asciiToMIDI : ℕ → ℤ) (k : Keyboard) : List SynthEvent × Bool :=
  let midiNote := asciiToMIDI k.key
  if midiNote > 0 then
    ([SynthEvent.triggerOff midiNote], true)
  else
    ([], true)

/-! ## `MyApp::onSound` and the commented-out echo -/

/-- `MyApp::onSound(io)`: the audio callback only calls
`synthManager.render(io)`.  The synth manager's rendering is external; it is
the abstract parameter `render`. -/
def MyApp.onSound (render : List Frame → List Frame) (io : List Frame) :
    List Frame :=
  render io

/-- Definition following the spec's words: the same program with the
commented-out delay-line, low-pass filter, timer and grain members removed
applies no echo/delay/filter processing, so its audio callback only renders
the synth manager's voices. -/
def MyAppNoEcho.onSound (render : List Frame → List Frame) (io : List Frame) :
    List Frame :=
  render io

/-! ## `main` -/

structure AudioConfig where
  sampleRate : ℝ
  bufferSize : ℕ
  outChannels : ℕ
  inChannels : ℕ

/-- A top-level action `main` performs on the app. -/
inductive AppAction where
  | configureAudio (cfg : AudioConfig)
  | start

/-- `main`: construct the app, call `app.configureAudio(48000., 512, 2, 0)`,
then `app.start()`. -/
def main : List AppAction :=
  [AppAction.configureAudio ⟨48000, 512, 2, 0⟩, AppAction.start]

/-- A concrete default-constructed voice, used to instantiate theorems at
concrete inputs. -/
def testVoice : SineEnv where
  mPan := ⟨0⟩
  mOsc := ⟨0, 0⟩
  mAmpEnv := ⟨0, ![0, 0, 0, 0], ![0, 0, 0], 0, 0⟩
  mEnvFollow := ⟨0⟩
  params := []

end Echo

namespace Echo

/-! ## Helper lemmas -/

/-- Reading back the "frequency" parameter after writing it on a voice whose
parameter store was built by `SineEnv::init`. -/
lemma init_set_get_frequency (v : SineEnv) (x : ℝ) :
    getInternalParameterValue
      (setInternalParameterValue (SineEnv.init v).params "frequency" x)
      "frequency" = x := by
  simp [SineEnv.init, createInternalTriggerParameter, setInternalParameterValue,
    getInternalParameterValue]

/-- The declared upper bound of the "frequency" parameter created in
`SineEnv::init` is 5000. -/
lemma init_frequency_max (v : SineEnv) :
    getInternalParameterMax (SineEnv.init v).params "frequency" = 5000 := by
  simp [SineEnv.init, createInternalTriggerParameter, getInternalParameterMax]

/-- `432 * 2^((n-69)/12)` exceeds 5000 for every MIDI note `n ≥ 112`. -/
lemma midiToFreq_gt_5000 {n : ℤ} (hn : 112 ≤ n) : 5000 < midiToFreq n := by
  have hmono : (2 : ℝ) ^ ((43 : ℝ) / 12) ≤ (2 : ℝ) ^ (((n : ℝ) - 69) / 12) := by
    rw [Real.rpow_le_rpow_left_iff one_lt_two]
    have h : (112 : ℝ) ≤ (n : ℝ) := by exact_mod_cast hn
    linarith
  have hbase : (5000 : ℝ) / 432 < (2 : ℝ) ^ ((43 : ℝ) / 12) := by
    have hx : (0 : ℝ) ≤ (2 : ℝ) ^ ((43 : ℝ) / 12) :=
      Real.rpow_nonneg (by norm_num) _
    have hpow12 : ((2 : ℝ) ^ ((43 : ℝ) / 12)) ^ (12 : ℕ) = (2 : ℝ) ^ (43 : ℕ) := by
      rw [← Real.rpow_natCast ((2 : ℝ) ^ ((43 : ℝ) / 12)) 12,
        ← Real.rpow_mul (by norm_num : (0 : ℝ) ≤ 2),
        ← Real.rpow_natCast (2 : ℝ) 43]
      norm_num
    refine lt_of_pow_lt_pow_left₀ 12 hx ?_
    rw [hpow12]
    norm_num
  have h432 : (5000 : ℝ) / 432 * 432 = 5000 := by norm_num
  unfold midiToFreq
  calc (5000 : ℝ) = 5000 / 432 * 432 := h432.symm
    _ < (2 : ℝ) ^ ((43 : ℝ) / 12) * 432 :=
        mul_lt_mul_of_pos_right hbase (by norm_num)
    _ ≤ (2 : ℝ) ^ (((n : ℝ) - 69) / 12) * 432 :=
        mul_le_mul_of_nonneg_right hmono (by norm_num)

end Echo

namespace Echo

/-! ## Theorems -/

/-- C3: A voice calls `free()` at the end of an `onProcess` call if and only
if the envelope reports done and the envelope-follower's value is strictly
below 0.001 (both evaluated on the state after the sample loop, which is the
state `onProcess` returns). -/
theorem sineEnv_onProcess_free_iff (ext : External) (v : SineEnv)
    (buf : List Frame) :
    (SineEnv.onProcess ext v buf).2.2 = true ↔
      ext.envDone (SineEnv.onProcess ext v buf).1.mAmpEnv = true ∧
      (SineEnv.onProcess ext v buf).1.mEnvFollow.value < 0.001 := by
  simp [SineEnv.onProcess]

/-- C4: On every invocation of `onProcess`, before any sample is produced,
the oscillator frequency, the envelope's attack segment (segment 0), the
envelope's release segment (segment 2) and the pan position are set from the
current values of the "frequency", "attackTime", "releaseTime" and "pan"
parameters, and the whole sample loop runs on that updated state. -/
theorem sineEnv_onProcess_applies_params (ext : External) (v : SineEnv)
    (buf : List Frame) :
    v.applyParams.mOsc.freq = getInternalParameterValue v.params "frequency" ∧
    v.applyParams.mAmpEnv.lengths 0 =
      getInternalParameterValue v.params "attackTime" ∧
    v.applyParams.mAmpEnv.lengths 2 =
      getInternalParameterValue v.params "releaseTime" ∧
    v.applyParams.mPan.pos = getInternalParameterValue v.params "pan" ∧
    (SineEnv.onProcess ext v buf).2.1 = (processLoop ext v.applyParams buf).2 := by
  refine ⟨rfl, ?_, ?_, rfl, rfl⟩
  · simp [SineEnv.applyParams, Function.update]
  · simp [SineEnv.applyParams, Function.update]

/-- C5: For each frame of the buffer, the loop body computes the pre-pan
sample `s1` as oscillator sample times envelope value times the "amplitude"
parameter, feeds `s1` to the envelope follower, pans `s1` into two channel
samples, and accumulates (`+=`) those onto the frame's existing channel-0
and channel-1 contents; the loop processes the frames in order, threading
the voice state. -/
theorem sineEnv_onProcess_per_frame (ext : External) (v : SineEnv)
    (f : Frame) (rest : List Frame) :
    processLoop ext v (f :: rest) =
      ((processLoop ext (processFrame ext v f).1 rest).1,
        (processFrame ext v f).2 ::
          (processLoop ext (processFrame ext v f).1 rest).2) ∧
    (processFrame ext v f).2.out0 =
      f.out0 + (ext.panLaw v.mPan.pos
        ((ext.oscStep v.mOsc).1 * (ext.envStep v.mAmpEnv).1 *
          getInternalParameterValue v.params "amplitude")).1 ∧
    (processFrame ext v f).2.out1 =
      f.out1 + (ext.panLaw v.mPan.pos
        ((ext.oscStep v.mOsc).1 * (ext.envStep v.mAmpEnv).1 *
          getInternalParameterValue v.params "amplitude")).2 ∧
    (processFrame ext v f).1.mEnvFollow =
      ext.followStep
        ((ext.oscStep v.mOsc).1 * (ext.envStep v.mAmpEnv).1 *
          getInternalParameterValue v.params "amplitude") v.mEnvFollow := by
  exact ⟨rfl, rfl, rfl, rfl⟩

/-- C2: After `SineEnv::init` runs, the amplitude envelope has levels
[0, 1, 1, 0], all segments linear (curve 0), and breakpoint 2 as the sustain
point. -/
theorem sineEnv_init_envelope (v : SineEnv) :
    (SineEnv.init v).mAmpEnv.curve = 0 ∧
    (SineEnv.init v).mAmpEnv.levels = ![0, 1, 1, 0] ∧
    (SineEnv.init v).mAmpEnv.sustainPoint = 2 := by
  refine ⟨rfl, rfl, rfl⟩

/-- C1: Pressing a key whose mapping `asciiToMIDI` yields a MIDI note
greater than 0, with shift not held and the GUI not capturing the keyboard,
sets the voice's "frequency" parameter to `2^((note-69)/12) * 432` and
triggers the note on. -/
theorem onKeyDown_sets_frequency (asciiToMIDI asciiToIndex : ℕ → ℤ)
    (gui : Bool) (k : Keyboard) (v : SineEnv)
    (hgui : gui = false) (hshift : k.shift = false)
    (hnote : 0 < asciiToMIDI k.key) :
    getInternalParameterValue
        (onKeyDown asciiToMIDI asciiToIndex gui k (SineEnv.init v).params).1
        "frequency"
      = (2 : ℝ) ^ (((asciiToMIDI k.key : ℝ) - 69) / 12) * 432 ∧
    SynthEvent.triggerOn (asciiToMIDI k.key) ∈
      (onKeyDown asciiToMIDI asciiToIndex gui k (SineEnv.init v).params).2.1 := by
  subst hgui
  rw [onKeyDown]
  simp only [Bool.false_eq_true, if_false, hshift, if_pos hnote]
  exact ⟨init_set_get_frequency v _, List.mem_singleton.mpr rfl⟩

/-- Witness for C1 at note 60 (key 'a', ASCII 97). -/
theorem onKeyDown_sets_frequency_witness :
    (0 : ℤ) < 60 ∧
    (getInternalParameterValue
        (onKeyDown (fun _ => (60 : ℤ)) (fun _ => 0) false ⟨97, false⟩
          (SineEnv.init testVoice).params).1 "frequency"
      = (2 : ℝ) ^ ((((60 : ℤ) : ℝ) - 69) / 12) * 432 ∧
     SynthEvent.triggerOn 60 ∈
      (onKeyDown (fun _ => (60 : ℤ)) (fun _ => 0) false ⟨97, false⟩
        (SineEnv.init testVoice).params).2.1) :=
  ⟨by decide,
   onKeyDown_sets_frequency (fun _ => 60) (fun _ => 0) false ⟨97, false⟩
     testVoice rfl rfl (by decide)⟩

/-- C6: On a key-down event not captured by the GUI: with shift held the key
is converted with `asciiToIndex` and that preset is recalled (no note is
triggered, no parameter is changed); with shift not held the key is
converted with `asciiToMIDI` and, when the result is greater than 0, a
note-on is triggered for it (and nothing happens otherwise).  On a key-up
event, when `asciiToMIDI` of the key is greater than 0, a note-off is
issued for that note (and nothing otherwise). -/
theorem key_handlers_dispatch (asciiToMIDI asciiToIndex : ℕ → ℤ)
    (gui : Bool) (k : Keyboard) (ps : ParamStore) (hgui : gui = false) :
    (k.shift = true →
      onKeyDown asciiToMIDI asciiToIndex gui k ps
        = (ps, [SynthEvent.recallPreset (asciiToIndex k.key)], true)) ∧
    (k.shift = false → 0 < asciiToMIDI k.key →
      (onKeyDown asciiToMIDI asciiToIndex gui k ps).2.1
        = [SynthEvent.triggerOn (asciiToMIDI k.key)]) ∧
    (k.shift = false → asciiToMIDI k.key ≤ 0 →
      onKeyDown asciiToMIDI asciiToIndex gui k ps = (ps, [], true)) ∧
    (0 < asciiToMIDI k.key →
      (onKeyUp asciiToMIDI k).1 = [SynthEvent.triggerOff (asciiToMIDI k.key)]) ∧
    (asciiToMIDI k.key ≤ 0 → (onKeyUp asciiToMIDI k).1 = []) := by
  subst hgui
  refine ⟨fun hshift => ?_, fun hshift hn => ?_, fun hshift hn => ?_,
    fun hn => ?_, fun hn => ?_⟩
  · rw [onKeyDown]
    simp only [Bool.false_eq_true, if_false, hshift, if_true]
  · rw [onKeyDown]
    simp only [Bool.false_eq_true, if_false, hshift, if_pos hn]
  · rw [onKeyDown]
    simp only [Bool.false_eq_true, if_false, hshift, if_neg (not_lt.mpr hn)]
  · rw [onKeyUp]
    simp only [if_pos hn]
  · rw [onKeyUp]
    simp only [if_neg (not_lt.mpr hn)]

/-- Witness for C6: key 'a' (ASCII 97) mapped to note 60, GUI not capturing,
shift not held on key-down; the same key released. -/
theorem key_handlers_dispatch_witness :
    (onKeyDown (fun _ => (60 : ℤ)) (fun _ => 0) false ⟨97, false⟩ []).2.1
        = [SynthEvent.triggerOn 60] ∧
    (onKeyUp (fun _ => (60 : ℤ)) ⟨97, false⟩).1 = [SynthEvent.triggerOff 60] :=
  ⟨(key_handlers_dispatch (fun _ => 60) (fun _ => 0) false ⟨97, false⟩ []
      rfl).2.1 rfl (by decide),
   (key_handlers_dispatch (fun _ => 60) (fun _ => 0) false ⟨97, false⟩ []
      rfl).2.2.2.1 (by decide)⟩

/-- C7: `main` configures the audio device with exactly 48000 Hz sample
rate, a 512-frame buffer, 2 output channels and 0 input channels, before
starting the app. -/
theorem main_audio_config :
    ∃ cfg : AudioConfig,
      main = [AppAction.configureAudio cfg, AppAction.start] ∧
      cfg.sampleRate = 48000 ∧ cfg.bufferSize = 512 ∧
      cfg.outChannels = 2 ∧ cfg.inChannels = 0 :=
  ⟨⟨48000, 512, 2, 0⟩, rfl, rfl, rfl, rfl, rfl⟩

/-- C8: The audio callback `MyApp::onSound` only renders the synth manager's
voices — it applies no echo/delay/filter processing — and its output equals
that of the program with the commented-out delay-line, low-pass filter,
timer and grain members removed (`MyAppNoEcho`). -/
theorem onSound_no_echo (render : List Frame → List Frame) (io : List Frame) :
    MyApp.onSound render io = render io ∧
    MyApp.onSound render io = MyAppNoEcho.onSound render io :=
  ⟨rfl, rfl⟩

/-- C9: `MyApp::onKeyDown` and `MyApp::onKeyUp` return true on every branch:
whether or not the GUI is capturing the keyboard, whether or not shift is
held, and whether or not the key maps to a MIDI note greater than 0. -/
theorem key_handlers_return_true (asciiToMIDI asciiToIndex : ℕ → ℤ)
    (gui : Bool) (k : Keyboard) (ps : ParamStore) :
    (onKeyDown asciiToMIDI asciiToIndex gui k ps).2.2 = true ∧
    (onKeyUp asciiToMIDI k).2 = true := by
  constructor
  · rw [onKeyDown]
    split
    · rfl
    · split
      · rfl
      · dsimp only
        split
        · rfl
        · rfl
  · rw [onKeyUp]
    split
    · rfl
    · rfl

/-- C10: The frequency written at key-down is not clamped to the
"frequency" parameter's declared bounds: for any mapping sending the
pressed key to a MIDI note `n ≥ 112`, the value `2^((n-69)/12) * 432`
stored by `onKeyDown` strictly exceeds the declared maximum 5000 created in
`SineEnv::init`. -/
theorem keyDown_frequency_unclamped (asciiToMIDI asciiToIndex : ℕ → ℤ)
    (gui : Bool) (k : Keyboard) (v : SineEnv)
    (hgui : gui = false) (hshift : k.shift = false)
    (hnote : 112 ≤ asciiToMIDI k.key) :
    getInternalParameterMax (SineEnv.init v).params "frequency" = 5000 ∧
    5000 <
      getInternalParameterValue
        (onKeyDown asciiToMIDI asciiToIndex gui k (SineEnv.init v).params).1
        "frequency" := by
  subst hgui
  refine ⟨init_frequency_max v, ?_⟩
  have hpos : 0 < asciiToMIDI k.key := lt_of_lt_of_le (by norm_num) hnote
  rw [onKeyDown]
  simp only [Bool.false_eq_true, if_false, hshift, if_pos hpos]
  rw [init_set_get_frequency v _]
  exact midiToFreq_gt_5000 hnote

/-- Witness for C10 at note 112. -/
theorem keyDown_frequency_unclamped_witness :
    (112 : ℤ) ≤ 112 ∧
    (getInternalParameterMax (SineEnv.init testVoice).params "frequency" = 5000 ∧
     5000 <
      getInternalParameterValue
        (onKeyDown (fun _ => (112 : ℤ)) (fun _ => 0) false ⟨97, false⟩
          (SineEnv.init testVoice).params).1 "frequency") :=
  ⟨by decide,
   keyDown_frequency_unclamped (fun _ => 112) (fun _ => 0) false ⟨97, false⟩
     testVoice rfl rfl (by decide)⟩

end Echo
